import Mathlib

/-!
Shallow embedding of `FinalProject/windows/recovery_window.py`:
the password-recovery flow (config loading, user-store loading and
validation, lookup by email, recovery-email dispatch, and the
controller method `recover_password`).

File-system effects are modelled by a `FileState` value describing the
store resource (missing, unparseable as JSON, or parsed into data);
Python exceptions are modelled by the `PyExn` type, and a function that
may raise returns `Except PyExn _`.  GUI notifications
(`show_message`) and the window close action are modelled as fields of
an explicit `FlowState` that `recover_password` transforms.
-/

set_option autoImplicit false

instance {ε α : Type} [DecidableEq ε] [DecidableEq α] : DecidableEq (Except ε α) := fun a b =>
  match a, b with
  | .ok x, .ok y =>
      match decEq x y with
      | isTrue h => isTrue (by rw [h])
      | isFalse h => isFalse (fun hh => h (by injection hh))
  | .ok _, .error _ => isFalse (fun hh => Except.noConfusion hh)
  | .error _, .ok _ => isFalse (fun hh => Except.noConfusion hh)
  | .error x, .error y =>
      match decEq x y with
      | isTrue h => isTrue (by rw [h])
      | isFalse h => isFalse (fun hh => h (by injection hh))

namespace RecoveryWindow

/-- The whitespace characters stripped by Python `str.strip()` (ASCII
range, which is all the data model uses). -/
def pySpace (c : Char) : Bool :=
  c = ' ' || c = '\t' || c = '\n' || c = '\r' || c = '\x0b' || c = '\x0c'

/-- Python `str.strip()`: remove leading and trailing whitespace. -/
def pyStrip (s : String) : String :=
  ⟨((s.data.dropWhile pySpace).reverse.dropWhile pySpace).reverse⟩

/-- Python `str.lower()` on one character (ASCII case folding, which is
all the data model uses). -/
def pyLowerChar (c : Char) : Char :=
  if c.toNat ≥ 65 && c.toNat ≤ 90 then Char.ofNat (c.toNat + 32) else c

/-- Python `str.lower()`. -/
def pyLower (s : String) : String :=
  ⟨s.data.map pyLowerChar⟩

/-- State of a file-backed resource as seen by the loading code:
the file may be absent, present but not decodable as JSON
(`unparseable` carries the decode-error detail), or decoded into data. -/
inductive FileState (α : Type) where
  | missing : FileState α
  | unparseable (err : String) : FileState α
  | parsed (data : α) : FileState α
deriving DecidableEq, Repr

/-- A user record as decoded from `users_db.json`: the `email` and
`password_hash` keys may each be present (with a string value) or absent. -/
structure UserRecord where
  email : Option String
  password_hash : Option String
deriving DecidableEq, Repr

/-- The user store: a mapping username -> record, in iteration order
(Python dicts iterate in insertion order, which `json.load` preserves). -/
abbrev UsersDb := List (String × UserRecord)

/-- The email configuration as decoded from `email_config.json`:
each of the two required keys may be present or absent. -/
structure EmailConfigFile where
  sender_email : Option String
  sender_password : Option String
deriving DecidableEq, Repr

/-- Python truthiness test `not v` for a value taken from a JSON object by
`config.get(key)`: the value is falsy when the key is absent (`None`) or
the string is empty. -/
def pyFalsy : Option String → Bool
  | none => true
  | some s => s.data.isEmpty

/-- Python exceptions raised (or caught) by the code under study.
`userNotFoundError`, `databaseError`, `emailConfigError` and
`emailSendingError` are the custom errors imported from
`FinalProject.assets.custom_errors`; the rest are standard exceptions. -/
inductive PyExn where
  | databaseError (msg : String)
  | emailConfigError (msg : String)
  | emailSendingError (msg : String)
  | userNotFoundError (email : String)
  | jsonDecodeError (msg : String)
  | fileNotFoundError (msg : String)
  | attributeError (msg : String)
deriving DecidableEq, Repr

/-- The rendering `str(e)` used when a caught exception is shown in a
notification.  For the four custom errors only `emailSendingError` is ever
caught and rendered by this unit (in `recover_password`), and it renders as
its message.  Modelled from the spec: the exact `__str__` of the custom
error classes lives in `FinalProject/assets/custom_errors.py`, which is not
part of the shown unit; for the constructors below whose rendering that
file would define and this unit never displays, we render the carried
payload directly. -/
def pyExnMsg : PyExn → String
  | .databaseError m => m
  | .emailConfigError m => m
  | .emailSendingError m => m
  | .userNotFoundError e => e
  | .jsonDecodeError m => m
  | .fileNotFoundError m => m
  | .attributeError m => m

/-- `EMAIL_CONFIG_FILE`: path of the email configuration file.  In the
source it is `os.path.join(os.getcwd(), "assets", "email_config.json")`;
the `os.getcwd()` prefix is process state outside the model. -/
def EMAIL_CONFIG_FILE : String := "assets/email_config.json"

/-- `DB_FILE`: path of the user database file.  In the source it is
`os.path.join(os.getcwd(), "assets", "users_db.json")`. -/
def DB_FILE : String := "assets/users_db.json"

/-- `load_config` from `recovery_window.py`: returns the decoded config
when both `sender_email` and `sender_password` are present and non-empty,
and raises `EmailConfigError` when the file is missing, fails JSON
decoding, or either field is falsy.  (The `raise EmailConfigError` for a
falsy field sits inside a `try` whose only handler is for
`json.JSONDecodeError`, so it propagates.) -/
def load_config (fs : FileState EmailConfigFile) : Except PyExn EmailConfigFile :=
  match fs with
  | .parsed config =>
      if pyFalsy config.sender_email || pyFalsy config.sender_password then
        .error (.emailConfigError "Missing email or password in the configuration file.")
      else
        .ok config
  | .unparseable err =>
      .error (.emailConfigError ("Failed to decode email config: " ++ err))
  | .missing =>
      .error (.emailConfigError ("Config file not found at " ++ EMAIL_CONFIG_FILE))

/-- Whitespace characters recognised by the email pattern model.  -/
def isWsChar (c : Char) : Bool :=
  c = ' ' || c = '\t' || c = '\n' || c = '\r'

/-- Modelled from the spec: `email_regex`, imported from
`FinalProject/assets/regex.py`, is not part of the shown unit.  Per the
spec it is a standard email-address pattern: local-part@domain, the domain
containing at least one dot, with no internal whitespace.  `emailFullmatch
s` models `re.fullmatch(email_regex, s) is not None`: exactly one `@`
splitting a non-empty local part from a non-empty domain that contains a
dot, and no whitespace anywhere. -/
def emailFullmatch (s : String) : Bool :=
  match s.data.splitOn '@' with
  | [localPart, domain] =>
      !localPart.isEmpty && !domain.isEmpty && domain.contains '.' &&
        !s.data.any isWsChar
  | _ => false

/-- Structured content of the `DatabaseError` raised by
`validate_users_db`: which record failed and the data interpolated into
the message. -/
inductive DbValidationError where
  | missingFields (username : String) (details : UserRecord)
  | invalidEmail (username : String) (email : String)
deriving DecidableEq, Repr

/-- The username named by a validation error. -/
def DbValidationError.username : DbValidationError → String
  | .missingFields u _ => u
  | .invalidEmail u _ => u

/-- `validate_users_db` from `recovery_window.py`: iterates the records in
order; for the first record missing the `email` or `password_hash` key it
raises `DatabaseError` naming the username; otherwise, for the first
record whose email fails `re.fullmatch(email_regex, ...)` it raises
`DatabaseError` naming the username; if every record passes both checks it
returns `True`. -/
def validate_users_db : UsersDb → Except DbValidationError Bool
  | [] => .ok true
  | (username, details) :: rest =>
      if details.email.isNone || details.password_hash.isNone then
        .error (.missingFields username details)
      else if !emailFullmatch (details.email.getD "") then
        .error (.invalidEmail username (details.email.getD ""))
      else
        validate_users_db rest

/-- Python `repr` of a single present field of a user record, used when a
record is interpolated into a `DatabaseError` message. -/
def reprField (name : String) : Option String → List String
  | none => []
  | some v => ["\x27" ++ name ++ "\x27: \x27" ++ v ++ "\x27"]

/-- Python `repr` of a user record (a dict with up to the two modelled
keys, in their JSON order email-then-password_hash). -/
def reprUserRecord (r : UserRecord) : String :=
  "\x7b" ++ String.intercalate ", "
    (reprField "email" r.email ++ reprField "password_hash" r.password_hash) ++ "\x7d"

/-- The message of the `DatabaseError` raised by `validate_users_db`:
`f"Missing fields for user |u|: |details|"` or
`f"Invalid email format for user |u|: |email|"`. -/
def renderDbValidationError : DbValidationError → String
  | .missingFields u d =>
      "Missing fields for user \x27" ++ u ++ "\x27: " ++ reprUserRecord d
  | .invalidEmail u e =>
      "Invalid email format for user \x27" ++ u ++ "\x27: " ++ e

/-- The body of the `try` block of `load_users_db`: raise `DatabaseError`
when the file is missing; decode JSON (raising `json.JSONDecodeError` on
failure); validate the structure, letting the validation `DatabaseError`
propagate; the `raise` under `if not validate_users_db(data)` is dead code
since `validate_users_db` never returns `False`. -/
def load_users_db_try (fs : FileState UsersDb) : Except PyExn UsersDb :=
  match fs with
  | .missing =>
      .error (.databaseError ("Database file not found at " ++ DB_FILE))
  | .unparseable err =>
      .error (.jsonDecodeError err)
  | .parsed data =>
      match validate_users_db data with
      | .error e => .error (.databaseError (renderDbValidationError e))
      | .ok true => .ok data
      | .ok false => .error (.databaseError "Invalid user database structure.")

/-- `load_users_db` from `recovery_window.py`: the `try` body above wrapped
in handlers `except FileNotFoundError`, `except json.JSONDecodeError` and
`except Exception` that all fall through to `return |empty dict|` - every
Python exception derives from `Exception`, so no error ever propagates and
any failure yields the empty mapping. -/
def load_users_db (fs : FileState UsersDb) : Except PyExn UsersDb :=
  match load_users_db_try fs with
  | .ok data => .ok data
  | .error _ => .ok []

/-- The normalization applied to emails before comparison in
`find_user_by_email`: Python `s.strip().lower()`. -/
def normalizeEmail (s : String) : String :=
  pyLower (pyStrip s)

/-- The loop of `find_user_by_email` over the loaded store, after the
query has been normalized: for each record in iteration order, compare
`details.get("email").strip().lower()` with the normalized query and return
the username on the first match; `details.get("email")` is `None` when the
key is absent, making `.strip()` raise `AttributeError`; after the loop,
raise `UserNotFoundError(email)`. -/
def find_loop (db : UsersDb) (email : String) : Except PyExn String :=
  match db with
  | [] => .error (.userNotFoundError email)
  | (username, details) :: rest =>
      match details.email with
      | none => .error (.attributeError "\x27NoneType\x27 object has no attribute \x27strip\x27")
      | some e =>
          if normalizeEmail e = email then
            .ok username
          else
            find_loop rest email

/-- `find_user_by_email` from `recovery_window.py`: normalize the query
(`email.strip().lower()`), load the users database, then scan it with
`find_loop`. -/
def find_user_by_email (dbFs : FileState UsersDb) (email : String) : Except PyExn String :=
  match load_users_db dbFs with
  | .error e => .error e
  | .ok users_db => find_loop users_db (normalizeEmail email)

/-- Abstract outcome of the SMTP session attempted by
`send_recovery_email`: success, `smtplib.SMTPAuthenticationError`,
`smtplib.SMTPConnectError`, or any other exception (carrying its
rendering `str(e)`). -/
inductive SmtpOutcome where
  | success
  | authError
  | connectError
  | otherError (msg : String)
deriving DecidableEq, Repr

/-- The fixed subject of the recovery email in `send_recovery_email`. -/
def recovery_subject : String := "Password Recovery"

/-- The body built by `send_recovery_email` for a given username: note the
literal text `[\x27password_hash\x27]` where the source presumably meant to
interpolate the stored secret. -/
def recovery_body (username : String) : String :=
  "Hello " ++ username ++
    ",\n\nWe received a request to recover your password.\nYour password is: [\x27password_hash\x27]\n\nIf you did not request this, please ignore this message."

/-- `EmailSender.send_recovery_email` from `recovery_window.py`, with the
SMTP session abstracted into its outcome: on success return; on
`SMTPAuthenticationError` raise `EmailSendingError` with the
authentication message; on `SMTPConnectError` raise `EmailSendingError`
with the connection message; on any other exception `e` raise
`EmailSendingError(f"Failed to send the recovery email: |e|")`. -/
def send_recovery_email (outcome : SmtpOutcome) : Except PyExn Unit :=
  match outcome with
  | .success => .ok ()
  | .authError =>
      .error (.emailSendingError "Authentication error: Unable to authenticate with SMTP server.")
  | .connectError =>
      .error (.emailSendingError "Connection error: Could not connect to SMTP server.")
  | .otherError msg =>
      .error (.emailSendingError ("Failed to send the recovery email: " ++ msg))

/-- Observable state of the recovery window as `recover_password` touches
it: the text in the email input field, the notifications shown so far (as
title-message pairs, in order), whether the window was closed, and the
exception escaping the handler, if any. -/
structure FlowState where
  inputText : String
  messages : List (String × String)
  closed : Bool
  raised : Option PyExn
deriving DecidableEq, Repr

/-- `RecoveryWindow.recover_password` from `recovery_window.py`: read the
input field; call `find_user_by_email` with NO surrounding handler, so any
exception it raises escapes; on a truthy username, try
`send_recovery_email`, showing a Success notification and closing the
window on success, and on any exception `e` showing an Error notification
with `str(e)` (input retained, window stays open); on a falsy username
(only the empty string, since `None` is never returned), show the
not-found Error notification and clear the input field. -/
def recover_password (dbFs : FileState UsersDb) (smtp : SmtpOutcome)
    (st : FlowState) : FlowState :=
  let email := st.inputText
  match find_user_by_email dbFs email with
  | .error e => { st with raised := some e }
  | .ok user =>
      if user = "" then
        { st with
            messages := st.messages ++ [("Error", "Email not found. Please try again.")],
            inputText := "" }
      else
        match send_recovery_email smtp with
        | .ok _ =>
            { st with
                messages := st.messages ++ [("Success", "A recovery email has been sent.")],
                closed := true }
        | .error e =>
            { st with messages := st.messages ++ [("Error", pyExnMsg e)] }

/-- The per-record half of the validation predicate enforced by
`validate_users_db`: both keys present and the email fully matching the
email pattern. -/
def recordOk (r : UserRecord) : Bool :=
  r.email.isSome && r.password_hash.isSome && emailFullmatch (r.email.getD "")

/-- A store resource on which the spec expects loading to fail: the file
is missing, undecodable, or its decoded data fails schema validation. -/
def storeFailing : FileState UsersDb → Bool
  | .missing => true
  | .unparseable _ => true
  | .parsed data =>
      match validate_users_db data with
      | .ok _ => false
      | .error _ => true

/-- Substring containment, stated over the underlying character lists. -/
def strContains (s t : String) : Prop :=
  ∃ p q, s.data = p ++ t.data ++ q

/-- The single-user store of the spec scenario:
`(alice -> (A@X.com, h1))`. -/
def db_alice : UsersDb := [("alice", ⟨some "A@X.com", some "h1"⟩)]

/-- A store with two usernames whose records share the same normalized
email (differing only in case). -/
def db_dup : UsersDb :=
  [("alice", ⟨some "a@x.com", some "h1"⟩), ("bob", ⟨some "A@X.com", some "h2"⟩)]

/-- A store whose only username is the empty string; its record is
schema-valid. -/
def db_empty_username : UsersDb := [("", ⟨some "a@x.com", some "h"⟩)]

/-- A fresh window state whose input field holds the given text: no
notifications shown, window open, no pending exception. -/
def freshState (input : String) : FlowState :=
  { inputText := input, messages := [], closed := false, raised := none }

/-! ## Helper lemmas -/

lemma validate_ok_iff (db : UsersDb) :
    validate_users_db db = .ok true ↔ ∀ p ∈ db, recordOk p.2 = true := by
  induction db with
  | nil => simp [validate_users_db]
  | cons hd tl ih =>
    obtain ⟨u, r⟩ := hd
    rcases he : r.email with _ | e
    · simp [validate_users_db, he, recordOk]
    · rcases hp : r.password_hash with _ | pw
      · simp [validate_users_db, he, hp, recordOk]
      · by_cases hm : emailFullmatch e = true
        · simp [validate_users_db, he, hp, hm, ih, recordOk]
        · simp [validate_users_db, he, hp, hm, recordOk]

lemma validate_never_false (db : UsersDb) (b : Bool)
    (h : validate_users_db db = .ok b) : b = true := by
  induction db with
  | nil =>
    simp only [validate_users_db, Except.ok.injEq] at h
    exact h.symm
  | cons hd tl ih =>
    obtain ⟨u, r⟩ := hd
    by_cases h1 : (r.email.isNone || r.password_hash.isNone) = true
    · simp [validate_users_db, h1] at h
    · by_cases h2 : (!emailFullmatch (r.email.getD "")) = true
      · simp [validate_users_db, h1, h2] at h
      · simp only [validate_users_db, if_neg h1, if_neg h2] at h
        exact ih h

lemma validate_error_first (db : UsersDb) (e : DbValidationError)
    (h : validate_users_db db = .error e) :
    ∃ pre p post, db = pre ++ p :: post ∧ (∀ q ∈ pre, recordOk q.2 = true) ∧
      recordOk p.2 = false ∧ e.username = p.1 := by
  induction db with
  | nil => simp [validate_users_db] at h
  | cons hd tl ih =>
    obtain ⟨u, r⟩ := hd
    rcases he : r.email with _ | em
    · simp only [validate_users_db, he] at h
      simp at h
      refine ⟨[], (u, r), tl, rfl, by simp, by simp [recordOk, he], ?_⟩
      rw [← h]
      rfl
    · rcases hp : r.password_hash with _ | pw
      · simp only [validate_users_db, he, hp] at h
        simp at h
        refine ⟨[], (u, r), tl, rfl, by simp, by simp [recordOk, hp], ?_⟩
        rw [← h]
        rfl
      · by_cases hm : emailFullmatch em = true
        · simp only [validate_users_db, he, hp] at h
          simp [hm] at h
          obtain ⟨pre, p, post, hdb, hpre, hbad, hname⟩ := ih h
          refine ⟨(u, r) :: pre, p, post, by simp [hdb], ?_, hbad, hname⟩
          intro q hq
          rcases List.mem_cons.mp hq with hq | hq
          · subst hq
            simp [recordOk, he, hp, hm]
          · exact hpre q hq
        · have hm' : emailFullmatch em = false := by simp_all
          simp only [validate_users_db, he, hp] at h
          simp [hm'] at h
          refine ⟨[], (u, r), tl, rfl, by simp, by simp [recordOk, he, hm'], ?_⟩
          subst h
          rfl

lemma load_users_db_cases (fs : FileState UsersDb) :
    load_users_db fs = .ok [] ∨
      ∃ db, fs = .parsed db ∧ validate_users_db db = .ok true ∧
        load_users_db fs = .ok db := by
  cases fs with
  | missing => exact Or.inl rfl
  | unparseable e => exact Or.inl rfl
  | parsed data =>
    rcases hv : validate_users_db data with e | b
    · exact Or.inl (by simp [load_users_db, load_users_db_try, hv])
    · have hb := validate_never_false data b hv
      subst hb
      exact Or.inr ⟨data, rfl, hv, by simp [load_users_db, load_users_db_try, hv]⟩

lemma recordOk_email_isSome (r : UserRecord) (h : recordOk r = true) :
    r.email.isSome = true := by
  simp only [recordOk, Bool.and_eq_true] at h
  exact h.1.1

lemma find_loop_shape (db : UsersDb) (n : String)
    (h : ∀ p ∈ db, p.2.email.isSome = true) :
    (∃ u, find_loop db n = .ok u) ∨
      find_loop db n = .error (.userNotFoundError n) := by
  induction db with
  | nil => exact Or.inr rfl
  | cons hd tl ih =>
    obtain ⟨u, r⟩ := hd
    rcases he : r.email with _ | e
    · have := h (u, r) (List.mem_cons_self _ _)
      simp [he] at this
    · by_cases hm : normalizeEmail e = n
      · exact Or.inl ⟨u, by simp [find_loop, he, hm]⟩
      · have := ih (fun p hp => h p (List.mem_cons_of_mem _ hp))
        simpa [find_loop, he, hm] using this

lemma find_shape (dbFs : FileState UsersDb) (q : String) :
    (∃ u, find_user_by_email dbFs q = .ok u) ∨
      find_user_by_email dbFs q = .error (.userNotFoundError (normalizeEmail q)) := by
  rcases load_users_db_cases dbFs with h | ⟨db, _, hv, h⟩
  · exact Or.inr (by simp [find_user_by_email, h, find_loop])
  · have hpres : ∀ p ∈ db, p.2.email.isSome = true := fun p hp =>
      recordOk_email_isSome p.2 ((validate_ok_iff db).mp hv p hp)
    have := find_loop_shape db (normalizeEmail q) hpres
    simpa [find_user_by_email, h] using this

lemma find_loop_append_skip (xs ys : UsersDb) (n : String)
    (h : ∀ p ∈ xs, ∃ e, p.2.email = some e ∧ normalizeEmail e ≠ n) :
    find_loop (xs ++ ys) n = find_loop ys n := by
  induction xs with
  | nil => rfl
  | cons hd tl ih =>
    obtain ⟨u, r⟩ := hd
    obtain ⟨e, he, hne⟩ := h (u, r) (List.mem_cons_self _ _)
    have he' : r.email = some e := he
    have := ih (fun p hp => h p (List.mem_cons_of_mem _ hp))
    simp [find_loop, he', hne, this]

/-! ## Claims -/

/-- Claim C1, amended: for every store resource that is missing,
unparseable as JSON, or containing a record that fails schema validation,
`load_users_db` catches the failure internally and returns the empty
mapping; no error reaches the caller and no partial data is returned. -/
theorem claim_C1 (fs : FileState UsersDb) (h : storeFailing fs = true) :
    load_users_db fs = .ok ([] : UsersDb) := by
  cases fs with
  | missing => rfl
  | unparseable err => rfl
  | parsed data =>
    rcases hv : validate_users_db data with e | b
    · simp [load_users_db, load_users_db_try, hv]
    · simp [storeFailing, hv] at h

/-- Claim C1, counterexample to the claim as stated: at the concrete
failing store resource `missing`, `load_users_db` does not propagate any
error to the caller - it returns the empty mapping. -/
theorem claim_C1_counterexample :
    load_users_db (FileState.missing : FileState UsersDb) = .ok [] ∧
      storeFailing (FileState.missing : FileState UsersDb) = true ∧
      ((∃ e, load_users_db (FileState.missing : FileState UsersDb) = .error e) → False) :=
  ⟨rfl, rfl, fun ⟨_, hh⟩ => by simp [load_users_db, load_users_db_try] at hh⟩

/-- Claim C1, witness: the amended theorem applied at the concrete
unparseable store resource. -/
theorem claim_C1_witness :
    storeFailing (FileState.unparseable "bad json" : FileState UsersDb) = true ∧
      load_users_db (FileState.unparseable "bad json" : FileState UsersDb) = .ok [] :=
  ⟨rfl, claim_C1 _ rfl⟩

/-- Claim C2, code bug: at the failing input - the store from the spec
scenario and the submitted email `bob@x.com`, which matches no record -
the lookup raises `UserNotFoundError`, and `recover_password` lets it
escape uncaught: no notification is shown, the input field is not
cleared, and the exception leaves the handler. -/
theorem claim_C2_code_bug :
    find_user_by_email (.parsed db_alice) "bob@x.com" =
        .error (.userNotFoundError "bob@x.com") ∧
      recover_password (.parsed db_alice) .success (freshState "bob@x.com") =
        { freshState "bob@x.com" with
            raised := some (.userNotFoundError "bob@x.com") } :=
  ⟨rfl, rfl⟩

/-- Claim C3: `find_user_by_email` compares the query and each stored
email after trimming surrounding whitespace and case-folding both sides:
its result depends on the query only through its normalization, it
depends on the stored emails only through their normalizations, and on
the spec scenario store the padded mixed-case query returns `alice`. -/
theorem claim_C3 :
    (∀ (db : UsersDb) (q1 q2 : String), normalizeEmail q1 = normalizeEmail q2 →
        find_user_by_email (.parsed db) q1 = find_user_by_email (.parsed db) q2) ∧
      (∀ (db1 db2 : UsersDb) (n : String),
        List.Forall₂ (fun a b : String × UserRecord =>
          a.1 = b.1 ∧ a.2.email.map normalizeEmail = b.2.email.map normalizeEmail)
          db1 db2 →
        find_loop db1 n = find_loop db2 n) ∧
      find_user_by_email (.parsed db_alice) "  a@x.com " = .ok "alice" := by
  refine ⟨?_, ?_, rfl⟩
  · intro db q1 q2 h
    simp [find_user_by_email, h]
  · intro db1 db2 n h
    induction h with
    | nil => rfl
    | @cons a b l1 l2 hab htl ih =>
      obtain ⟨h1, h2⟩ := hab
      rcases hea : a.2.email with _ | ea
      · have heb : b.2.email = none := by
          simpa [hea] using h2.symm
        simp [find_loop, hea, heb]
      · rcases heb : b.2.email with _ | eb
        · simp [hea, heb] at h2
        · simp only [hea, heb, Option.map_some] at h2
          have h2' : normalizeEmail ea = normalizeEmail eb := by
            injection h2
          by_cases hn : normalizeEmail ea = n
          · have hn2 : normalizeEmail eb = n := h2' ▸ hn
            simp [find_loop, hea, heb, hn, hn2, h1]
          · have hn2 : ¬normalizeEmail eb = n := h2' ▸ hn
            simp [find_loop, hea, heb, hn, hn2, ih]

/-- Claim C3, witness: query-side insensitivity applied at a concrete
padded upper-case query, together with the spec scenario. -/
theorem claim_C3_witness :
    find_user_by_email (.parsed db_alice) "A@X.COM  " =
        find_user_by_email (.parsed db_alice) "a@x.com" ∧
      find_user_by_email (.parsed db_alice) "  a@x.com " = .ok "alice" :=
  ⟨claim_C3.1 db_alice "A@X.COM  " "a@x.com" (by decide), claim_C3.2.2⟩

/-- Claim C4: `load_config` fails with `EmailConfigError` exactly when
the config resource is missing, unparseable, or has `sender_email` or
`sender_password` absent or blank; when both fields are present and
non-empty it returns the config. -/
theorem claim_C4 (fs : FileState EmailConfigFile) :
    ((∃ m, load_config fs = .error (PyExn.emailConfigError m)) ↔
        (fs = .missing ∨ (∃ err, fs = .unparseable err) ∨
          ∃ cfg, fs = .parsed cfg ∧
            (pyFalsy cfg.sender_email || pyFalsy cfg.sender_password) = true)) ∧
      (∀ cfg, fs = .parsed cfg → pyFalsy cfg.sender_email = false →
        pyFalsy cfg.sender_password = false → load_config fs = .ok cfg) := by
  constructor
  · cases fs with
    | missing => simp [load_config]
    | unparseable err => simp [load_config]
    | parsed cfg =>
      by_cases hc : (pyFalsy cfg.sender_email || pyFalsy cfg.sender_password) = true
      · simp [load_config, hc]
        simpa using hc
      · simp [load_config, hc]
        simpa using hc
  · intro cfg hfs h1 h2
    subst hfs
    simp [load_config, h1, h2]

/-- Claim C4, witness: the success case applied at a concrete config with
both fields present and non-empty, and the failure case at a concrete
config with `sender_password` absent. -/
theorem claim_C4_witness :
    load_config (.parsed ⟨some "sender@mail.com", some "pw"⟩) =
        .ok ⟨some "sender@mail.com", some "pw"⟩ ∧
      (∃ m, load_config (.parsed ⟨some "sender@mail.com", none⟩) =
        .error (PyExn.emailConfigError m)) :=
  ⟨(claim_C4 _).2 _ rfl rfl rfl,
    ((claim_C4 _).1).mpr (Or.inr (Or.inr ⟨_, rfl, rfl⟩))⟩

/-- Claim C5: for every username, the message body built by
`send_recovery_email` contains the username and the literal placeholder
text `[\x27password_hash\x27]` - not the stored secret - and the subject is the
fixed string `Password Recovery`. -/
theorem claim_C5 (username : String) :
    strContains (recovery_body username) username ∧
      strContains (recovery_body username) "[\x27password_hash\x27]" ∧
      recovery_subject = "Password Recovery" := by
  refine ⟨⟨"Hello ".data,
    (",\n\nWe received a request to recover your password.\nYour password is: [\x27password_hash\x27]\n\nIf you did not request this, please ignore this message.").data,
    ?_⟩,
    ⟨"Hello ".data ++ username.data ++
      (",\n\nWe received a request to recover your password.\nYour password is: ").data,
      ("\n\nIf you did not request this, please ignore this message.").data, ?_⟩,
    rfl⟩
  · simp [recovery_body, String.data_append]
  · simp only [recovery_body, String.data_append, List.append_assoc]
    refine congrArg (fun l => "Hello ".data ++ (username.data ++ l)) ?_
    decide

/-- Claim C5, witness: the body and subject properties at the concrete
username `alice`. -/
theorem claim_C5_witness :
    strContains (recovery_body "alice") "alice" ∧
      strContains (recovery_body "alice") "[\x27password_hash\x27]" ∧
      recovery_subject = "Password Recovery" :=
  claim_C5 "alice"

/-- Claim C6: every failure of `send_recovery_email` is raised as an
`EmailSendingError`, with SMTP authentication failures mapped to the
authentication message, SMTP connection failures to the connection
message, and any other transport failure to the generic message; no
other exception escapes. -/
theorem claim_C6 :
    send_recovery_email .authError =
        .error (.emailSendingError
          "Authentication error: Unable to authenticate with SMTP server.") ∧
      send_recovery_email .connectError =
        .error (.emailSendingError
          "Connection error: Could not connect to SMTP server.") ∧
      (∀ m, send_recovery_email (.otherError m) =
        .error (.emailSendingError ("Failed to send the recovery email: " ++ m))) ∧
      (∀ o, o ≠ SmtpOutcome.success →
        ∃ m, send_recovery_email o = .error (.emailSendingError m)) ∧
      (∀ o e, send_recovery_email o = .error e → ∃ m, e = .emailSendingError m) := by
  refine ⟨rfl, rfl, fun m => rfl, ?_, ?_⟩
  · intro o ho
    cases o with
    | success => exact absurd rfl ho
    | authError => exact ⟨_, rfl⟩
    | connectError => exact ⟨_, rfl⟩
    | otherError m => exact ⟨_, rfl⟩
  · intro o e he
    cases o with
    | success => simp [send_recovery_email] at he
    | authError =>
      injection he with h
      exact ⟨_, h.symm⟩
    | connectError =>
      injection he with h
      exact ⟨_, h.symm⟩
    | otherError m =>
      injection he with h
      exact ⟨_, h.symm⟩

/-- Claim C6, witness: the classification applied at the concrete failing
outcomes. -/
theorem claim_C6_witness :
    (∃ m, send_recovery_email .authError = .error (.emailSendingError m)) ∧
      (∃ m, PyExn.emailSendingError
          "Connection error: Could not connect to SMTP server." =
        .emailSendingError m) :=
  ⟨claim_C6.2.2.2.1 .authError (by decide),
    claim_C6.2.2.2.2 .connectError _ claim_C6.2.1⟩

/-- Claim C7: on a well-formed store, `find_user_by_email` returns the
first username in the store's iteration order whose record's normalized
email equals the normalized query - in particular, when a later record
shares the same normalized email, the earlier username wins. -/
theorem claim_C7 (xs ys : UsersDb) (u1 : String) (r1 : UserRecord) (q : String)
    (hval : validate_users_db (xs ++ (u1, r1) :: ys) = .ok true)
    (hskip : ∀ p ∈ xs, p.2.email.map normalizeEmail ≠ some (normalizeEmail q))
    (hmatch : r1.email.map normalizeEmail = some (normalizeEmail q)) :
    find_user_by_email (.parsed (xs ++ (u1, r1) :: ys)) q = .ok u1 := by
  have hload : load_users_db (.parsed (xs ++ (u1, r1) :: ys)) =
      .ok (xs ++ (u1, r1) :: ys) := by
    simp [load_users_db, load_users_db_try, hval]
  have hskip' : ∀ p ∈ xs, ∃ e, p.2.email = some e ∧
      normalizeEmail e ≠ normalizeEmail q := by
    intro p hp
    have hok := (validate_ok_iff _).mp hval p (by simp [hp])
    have hsome := recordOk_email_isSome p.2 hok
    rcases hpe : p.2.email with _ | e
    · simp [hpe] at hsome
    · refine ⟨e, rfl, ?_⟩
      have hs := hskip p hp
      simpa [hpe] using hs
  rcases hre : r1.email with _ | e
  · simp [hre] at hmatch
  · have hn : normalizeEmail e = normalizeEmail q := by
      simpa [hre] using hmatch
    simp [find_user_by_email, hload,
      find_loop_append_skip xs ((u1, r1) :: ys) (normalizeEmail q) hskip',
      find_loop, hre, hn]

/-- Claim C7, witness: on the concrete store with `alice` and `bob`
sharing the same normalized email, the query returns `alice`, the first
in iteration order. -/
theorem claim_C7_witness :
    find_user_by_email (.parsed db_dup) "a@x.com" = .ok "alice" := by
  exact claim_C7 [] [("bob", ⟨some "A@X.com", some "h2"⟩)] "alice"
    ⟨some "a@x.com", some "h1"⟩ "a@x.com" (by decide) (by simp) (by decide)

/-- Claim C8: once the lookup has produced a (truthy) username, a
successful dispatcher send shows the Success notification and closes the
window, while a failing send shows an Error notification carrying the
failure's message, leaves the window open, and does not clear the input
field. -/
theorem claim_C8 (dbFs : FileState UsersDb) (smtp : SmtpOutcome) (st : FlowState)
    (u : String) (hfind : find_user_by_email dbFs st.inputText = .ok u)
    (hu : u ≠ "") :
    (smtp = .success →
      recover_password dbFs smtp st =
        { st with
            messages := st.messages ++ [("Success", "A recovery email has been sent.")],
            closed := true }) ∧
    (∀ e, send_recovery_email smtp = .error e →
      recover_password dbFs smtp st =
        { st with messages := st.messages ++ [("Error", pyExnMsg e)] }) := by
  constructor
  · intro hs
    subst hs
    simp [recover_password, hfind, hu, send_recovery_email]
  · intro e he
    simp [recover_password, hfind, hu, he]

/-- Claim C8, witness: the two dispatcher outcomes applied on the spec
scenario store with a matching input. -/
theorem claim_C8_witness :
    recover_password (.parsed db_alice) .success (freshState "a@x.com") =
        { freshState "a@x.com" with
            messages := [("Success", "A recovery email has been sent.")],
            closed := true } ∧
      recover_password (.parsed db_alice) .authError (freshState "a@x.com") =
        { freshState "a@x.com" with
            messages := [("Error",
              "Authentication error: Unable to authenticate with SMTP server.")] } :=
  ⟨(claim_C8 _ _ _ "alice" (by decide) (by decide)).1 rfl,
    (claim_C8 (.parsed db_alice) .authError (freshState "a@x.com") "alice"
        (by decide) (by decide)).2
      (PyExn.emailSendingError
        "Authentication error: Unable to authenticate with SMTP server.") rfl⟩

/-- Claim C9: `validate_users_db` returns `True` exactly when every
record has both required keys and a fully-matching email; it never
returns `False`; and on any violation the error it raises names the
first offending username in iteration order. -/
theorem claim_C9 (db : UsersDb) :
    (validate_users_db db = .ok true ↔ ∀ p ∈ db, recordOk p.2 = true) ∧
      (∀ b, validate_users_db db = .ok b → b = true) ∧
      (∀ e, validate_users_db db = .error e →
        ∃ pre p post, db = pre ++ p :: post ∧
          (∀ q ∈ pre, recordOk q.2 = true) ∧ recordOk p.2 = false ∧
          e.username = p.1) :=
  ⟨validate_ok_iff db, fun b => validate_never_false db b,
    fun e => validate_error_first db e⟩

/-- Claim C9, witness: validity of the spec scenario store, and the
error naming the offending username on a concrete store whose only
record lacks `password_hash`. -/
theorem claim_C9_witness :
    validate_users_db db_alice = .ok true ∧
      (∃ pre p post,
        ([("bob", (⟨some "b@x.com", none⟩ : UserRecord))] : UsersDb) =
          pre ++ p :: post ∧
        (∀ q ∈ pre, recordOk q.2 = true) ∧ recordOk p.2 = false ∧
        (DbValidationError.missingFields "bob" ⟨some "b@x.com", none⟩).username = p.1) :=
  ⟨(claim_C9 db_alice).1.mpr (by decide), (claim_C9 _).2.2 _ rfl⟩

/-- Claim C10, counterexample to the claim as stated: the else branch of
`recover_password` is reachable - on a store whose matching record has
the empty string as username, the lookup returns that empty (falsy)
string without raising, and the handler takes the else branch, showing
the not-found notification and clearing the input field. -/
theorem claim_C10_counterexample :
    find_user_by_email (.parsed db_empty_username) "a@x.com" = .ok "" ∧
      recover_password (.parsed db_empty_username) .success (freshState "a@x.com") =
        { inputText := "",
          messages := [("Error", "Email not found. Please try again.")],
          closed := false, raised := none } :=
  ⟨rfl, rfl⟩

/-- Claim C10, amended: `find_user_by_email` indeed never returns `None`
- it either returns a username string or raises `UserNotFoundError` -
but the falsy-result else branch of `recover_password` is reachable when
the returned username is the empty string; whenever the lookup does not
return the empty string, the input field is never cleared. -/
theorem claim_C10 (dbFs : FileState UsersDb) (q : String) :
    ((∃ u, find_user_by_email dbFs q = .ok u) ∨
        find_user_by_email dbFs q = .error (.userNotFoundError (normalizeEmail q))) ∧
      (∀ (smtp : SmtpOutcome) (st : FlowState), st.inputText = q →
        find_user_by_email dbFs q ≠ .ok "" →
        (recover_password dbFs smtp st).inputText = st.inputText) := by
  refine ⟨find_shape dbFs q, ?_⟩
  intro smtp st hst hne
  subst hst
  rcases hf : find_user_by_email dbFs st.inputText with e | u
  · simp [recover_password, hf]
  · have hu : u ≠ "" := fun h => hne (h ▸ hf)
    simp only [recover_password, hf]
    simp [hu]
    cases smtp <;> simp [send_recovery_email]

/-- Claim C10, witness: the amended theorem applied on the spec scenario
store, where the match is non-empty and the input field is retained. -/
theorem claim_C10_witness :
    (recover_password (.parsed db_alice) .success (freshState "a@x.com")).inputText =
        "a@x.com" ∧
      ((∃ u, find_user_by_email (.parsed db_alice) "a@x.com" = .ok u) ∨
        find_user_by_email (.parsed db_alice) "a@x.com" =
          .error (.userNotFoundError (normalizeEmail "a@x.com"))) :=
  ⟨(claim_C10 _ "a@x.com").2 .success (freshState "a@x.com") rfl (by decide),
    (claim_C10 _ "a@x.com").1⟩

end RecoveryWindow
